import Mathlib

/-!
Shallow embedding of the batch-cstr-pyrolysis analysis code.

Numeric values are modelled as rationals.  The external chemistry
services (the `chemics` package's `biocomp` routine, SciPy's `minimize`
and the Cantera reactor solver) are opaque to this repository, so they
are modelled as function parameters: every theorem quantifies over them.

Source files embedded here:
  feedstock.py      (class Feedstock)
  biocomp_all.py    (objfunc)
  reactor.py        (run_batch_simulation, run_cstr_simulation)
  batch_reactor.py  (class BatchReactor)
-/

namespace Pyrolysis

/-- Proximate analysis values [FC, VM, ash, moisture] in wt. %. -/
structure Prox where
  fc : ℚ
  vm : ℚ
  ash : ℚ
  moisture : ℚ
  deriving DecidableEq

/-- Proximate analysis on a dry basis [FC, VM, ash]. -/
structure ProxD where
  fc : ℚ
  vm : ℚ
  ash : ℚ
  deriving DecidableEq

/-- Proximate analysis on a dry ash-free basis [FC, VM]. -/
structure ProxDaf where
  fc : ℚ
  vm : ℚ
  deriving DecidableEq

/-- Ultimate analysis values [C, H, O, N, S, ash, moisture] in wt. %. -/
structure Ult where
  c : ℚ
  h : ℚ
  o : ℚ
  n : ℚ
  s : ℚ
  ash : ℚ
  moisture : ℚ
  deriving DecidableEq

/-- Ultimate analysis on a dry basis [C, H, O, N, S, ash]. -/
structure UltD where
  c : ℚ
  h : ℚ
  o : ℚ
  n : ℚ
  s : ℚ
  ash : ℚ
  deriving DecidableEq

/-- Ultimate analysis on a dry ash-free basis [C, H, O, N, S]. -/
structure UltDaf where
  c : ℚ
  h : ℚ
  o : ℚ
  n : ℚ
  s : ℚ
  deriving DecidableEq

/-- Ultimate analysis on a CHO basis [C, H, O]. -/
structure UltCho where
  c : ℚ
  h : ℚ
  o : ℚ
  deriving DecidableEq

/-- Chemical analysis values [structural organics, non-structural organics,
water extractable, ethanol extractives, acetone extractives, lignin, glucan,
xylan, galactan, arabinan, mannan, acetyl] in wt. %. -/
structure Chem where
  structOrg : ℚ
  nonstructOrg : ℚ
  waterExt : ℚ
  ethanolExt : ℚ
  acetoneExt : ℚ
  lignin : ℚ
  glucan : ℚ
  xylan : ℚ
  galactan : ℚ
  arabinan : ℚ
  mannan : ℚ
  acetyl : ℚ
  deriving DecidableEq

/-- Biomass composition [cellulose, hemicellulose, lignin]. -/
structure ChemBc where
  cell : ℚ
  hemi : ℚ
  lig : ℚ
  deriving DecidableEq

/-- Experimental yield values [oil, condensables, light gas, water vapor,
char] in wt. %. -/
structure Yield5 where
  oil : ℚ
  condensables : ℚ
  lightGas : ℚ
  waterVapor : ℚ
  char : ℚ
  deriving DecidableEq

/-- Lumped yield values [gases, liquids, solids] in wt. %. -/
structure Lump3 where
  gases : ℚ
  liquids : ℚ
  solids : ℚ
  deriving DecidableEq

/-- Sum of the five experimental yield entries. -/
def Yield5.total (y : Yield5) : ℚ :=
  y.oil + y.condensables + y.lightGas + y.waterVapor + y.char

/-- Sum of the three lumped yield entries. -/
def Lump3.total (l : Lump3) : ℚ :=
  l.gases + l.liquids + l.solids

/-- Sum of the four as-determined proximate analysis entries. -/
def Prox.total (p : Prox) : ℚ :=
  p.fc + p.vm + p.ash + p.moisture

/-- Sum of the three dry-basis proximate analysis entries. -/
def ProxD.total (p : ProxD) : ℚ :=
  p.fc + p.vm + p.ash

/-- Sum of the two dry-ash-free proximate analysis entries. -/
def ProxDaf.total (p : ProxDaf) : ℚ :=
  p.fc + p.vm

/-- Sum of the seven as-determined ultimate analysis entries. -/
def Ult.total (u : Ult) : ℚ :=
  u.c + u.h + u.o + u.n + u.s + u.ash + u.moisture

/-- Sum of the five dry-ash-free ultimate analysis entries. -/
def UltDaf.total (u : UltDaf) : ℚ :=
  u.c + u.h + u.o + u.n + u.s

/-- Sum of the three CHO-basis ultimate analysis entries. -/
def UltCho.total (u : UltCho) : ℚ :=
  u.c + u.h + u.o

/-- Proximate analysis as-received basis, from `Feedstock._prox_bases`. -/
def calc_prox_ar (p : Prox) (adl : ℚ) : Prox :=
  let mAr := (p.moisture * (100 - adl) / 100) + adl
  { fc := p.fc * (100 - mAr) / (100 - p.moisture)
    vm := p.vm * (100 - mAr) / (100 - p.moisture)
    ash := p.ash * (100 - mAr) / (100 - p.moisture)
    moisture := mAr }

/-- Proximate analysis dry basis, from `Feedstock._prox_bases`. -/
def calc_prox_d (p : Prox) : ProxD :=
  { fc := p.fc * 100 / (100 - p.moisture)
    vm := p.vm * 100 / (100 - p.moisture)
    ash := p.ash * 100 / (100 - p.moisture) }

/-- Proximate analysis dry ash-free basis, from `Feedstock._prox_bases`. -/
def calc_prox_daf (p : Prox) : ProxDaf :=
  { fc := p.fc * 100 / (100 - p.moisture - p.ash)
    vm := p.vm * 100 / (100 - p.moisture - p.ash) }

/-- Ultimate analysis as-received basis, from `Feedstock._ult_bases`. -/
def calc_ult_ar (u : Ult) (adl : ℚ) : Ult :=
  let mAr := (u.moisture * ((100 - adl) / 100)) + adl
  { c := u.c * (100 - mAr) / (100 - u.moisture)
    h := (u.h - 0.1119 * u.moisture) * (100 - mAr) / (100 - u.moisture)
    o := (u.o - 0.8881 * u.moisture) * (100 - mAr) / (100 - u.moisture)
    n := u.n * (100 - mAr) / (100 - u.moisture)
    s := u.s * (100 - mAr) / (100 - u.moisture)
    ash := u.ash * (100 - mAr) / (100 - u.moisture)
    moisture := mAr }

/-- Ultimate analysis dry basis, from `Feedstock._ult_bases`. -/
def calc_ult_d (u : Ult) : UltD :=
  { c := u.c * 100 / (100 - u.moisture)
    h := (u.h - 0.1119 * u.moisture) * 100 / (100 - u.moisture)
    o := (u.o - 0.8881 * u.moisture) * 100 / (100 - u.moisture)
    n := u.n * 100 / (100 - u.moisture)
    s := u.s * 100 / (100 - u.moisture)
    ash := u.ash * 100 / (100 - u.moisture) }

/-- Ultimate analysis dry ash-free basis, from `Feedstock._ult_bases`. -/
def calc_ult_daf (u : Ult) : UltDaf :=
  { c := u.c * 100 / (100 - u.moisture - u.ash)
    h := (u.h - 0.1119 * u.moisture) * 100 / (100 - u.moisture - u.ash)
    o := (u.o - 0.8881 * u.moisture) * 100 / (100 - u.moisture - u.ash)
    n := u.n * 100 / (100 - u.moisture - u.ash)
    s := u.s * 100 / (100 - u.moisture - u.ash) }

/-- Ultimate analysis CHO basis from the daf basis, from
`Feedstock._ult_bases`. -/
def calc_ult_cho (u : Ult) : UltCho :=
  let daf := calc_ult_daf u
  { c := daf.c * 100 / (100 - daf.n - daf.s)
    h := daf.h * 100 / (100 - daf.n - daf.s)
    o := daf.o * 100 / (100 - daf.n - daf.s) }

/-- Normalized experimental yield, from `Feedstock.__init__`:
`np.array(data['yield']) / sum(np.array(data['yield'])) * 100`. -/
def calc_normexp (y : Yield5) : Yield5 :=
  { oil := y.oil / y.total * 100
    condensables := y.condensables / y.total * 100
    lightGas := y.lightGas / y.total * 100
    waterVapor := y.waterVapor / y.total * 100
    char := y.char / y.total * 100 }

/-- Lumped yields, from `Feedstock._lump_yields`: gases = light gas,
liquids = oil + condensables + water vapor, solids = char. -/
def calc_lump (y : Yield5) : Lump3 :=
  { gases := y.lightGas
    liquids := y.oil + y.condensables + y.waterVapor
    solids := y.char }

/-- Alternative lumped yields, from `Feedstock._lump_yields`:
gases = light gas + condensables + water vapor, liquids = oil,
solids = char. -/
def calc_lump2 (y : Yield5) : Lump3 :=
  { gases := y.lightGas + y.condensables + y.waterVapor
    liquids := y.oil
    solids := y.char }

/-- Sum of the twelve chemical analysis entries. -/
def Chem.total (c : Chem) : ℚ :=
  c.structOrg + c.nonstructOrg + c.waterExt + c.ethanolExt + c.acetoneExt +
    c.lignin + c.glucan + c.xylan + c.galactan + c.arabinan + c.mannan + c.acetyl

/-- Chemical analysis dry ash-free basis, from `Feedstock._chem_bases`:
every entry is scaled by `100 / (total - chem_d[0] - chem_d[1])` and the
first two entries are then zeroed. -/
def calc_chem_daf (c : Chem) : Chem :=
  let denom := c.total - c.structOrg - c.nonstructOrg
  { structOrg := 0
    nonstructOrg := 0
    waterExt := c.waterExt * 100 / denom
    ethanolExt := c.ethanolExt * 100 / denom
    acetoneExt := c.acetoneExt * 100 / denom
    lignin := c.lignin * 100 / denom
    glucan := c.glucan * 100 / denom
    xylan := c.xylan * 100 / denom
    galactan := c.galactan * 100 / denom
    arabinan := c.arabinan * 100 / denom
    mannan := c.mannan * 100 / denom
    acetyl := c.acetyl * 100 / denom }

/-- Biomass composition from the chemical analysis daf values, from
`Feedstock._chem_bases`: cellulose = glucan, hemicellulose = xylan +
galactan + arabinan + mannan + acetyl, lignin = lignin. -/
def calc_chem_bc (daf : Chem) : ChemBc :=
  { cell := daf.glucan
    hemi := daf.xylan + daf.galactan + daf.arabinan + daf.mannan + daf.acetyl
    lig := daf.lignin }

/-- Feedstock record: all attributes assigned by `Feedstock.__init__`. -/
structure Feedstock where
  name : String
  cycle : ℤ
  prox_ad : Prox
  prox_ar : Prox
  prox_d : ProxD
  prox_daf : ProxDaf
  ult_ad : Ult
  ult_ar : Ult
  ult_d : UltD
  ult_daf : UltDaf
  ult_cho : UltCho
  chem_d : Chem
  chem_daf : Chem
  chem_bc : ChemBc
  adl : ℚ
  exp_yield : Yield5
  normexp_yield : Yield5
  lump_yield : Lump3
  lump2_yield : Lump3
  normlump_yield : Lump3
  residence_time : Option ℚ

/-- Feedstock construction from well-typed input values, mirroring
`Feedstock.__init__`: ADL is fixed at 22, the normalized yield is the
experimental yield scaled to a 100 total, and the derived bases are
computed by the `_prox_bases`, `_ult_bases`, `_lump_yields` and
`_chem_bases` methods. -/
def Feedstock.init (name : String) (cycle : ℤ) (proximate : Prox)
    (ultimate : Ult) (chemical : Chem) (yieldData : Yield5)
    (residenceTime : Option ℚ) : Feedstock :=
  let adl : ℚ := 22
  let normexp := calc_normexp yieldData
  let chemDaf := calc_chem_daf chemical
  { name := name
    cycle := cycle
    prox_ad := proximate
    prox_ar := calc_prox_ar proximate adl
    prox_d := calc_prox_d proximate
    prox_daf := calc_prox_daf proximate
    ult_ad := ultimate
    ult_ar := calc_ult_ar ultimate adl
    ult_d := calc_ult_d ultimate
    ult_daf := calc_ult_daf ultimate
    ult_cho := calc_ult_cho ultimate
    chem_d := chemical
    chem_daf := chemDaf
    chem_bc := calc_chem_bc chemDaf
    adl := adl
    exp_yield := yieldData
    normexp_yield := normexp
    lump_yield := calc_lump yieldData
    lump2_yield := calc_lump2 yieldData
    normlump_yield := calc_lump normexp
    residence_time := residenceTime }

/-- Input dictionary for the Feedstock constructor: each key may be
present (`some`) or absent (`none`). -/
structure FeedstockData where
  name : Option String
  cycle : Option ℤ
  proximate : Option Prox
  ultimate : Option Ult
  chemical : Option Chem
  yieldData : Option Yield5
  residenceTime : Option ℚ

/-- Feedstock construction from a dictionary, mirroring the key accesses
of `Feedstock.__init__`: the required keys are read in source order and
the first missing one raises a KeyError; `residenceTime` is optional and
the attribute is only set when the key is present. -/
def Feedstock.fromData (d : FeedstockData) : Except String Feedstock :=
  match d.name with
  | none => Except.error "KeyError: name"
  | some name =>
    match d.cycle with
    | none => Except.error "KeyError: cycle"
    | some cycle =>
      match d.proximate with
      | none => Except.error "KeyError: proximate"
      | some proximate =>
        match d.ultimate with
        | none => Except.error "KeyError: ultimate"
        | some ultimate =>
          match d.chemical with
          | none => Except.error "KeyError: chemical"
          | some chemical =>
            match d.yieldData with
            | none => Except.error "KeyError: yield"
            | some yieldData =>
              Except.ok (Feedstock.init name cycle proximate ultimate
                chemical yieldData d.residenceTime)

/-- Splitting parameter values [alpha, beta, gamma, delta, epsilon]. -/
structure Splits where
  alpha : ℚ
  beta : ℚ
  gamma : ℚ
  delta : ℚ
  epsilon : ℚ
  deriving DecidableEq

/-- Dry ash-free composition returned by the external `cm.biocomp`
routine as `bc['y_daf']`: [cell, hemi, lig-c, lig-h, lig-o, tann, tgl]. -/
structure YDaf where
  cell : ℚ
  hemi : ℚ
  ligc : ℚ
  ligh : ℚ
  ligo : ℚ
  tann : ℚ
  tgl : ℚ
  deriving DecidableEq

/-- Type of the external `cm.biocomp` routine: carbon mass fraction,
hydrogen mass fraction and the five splitting parameters give a daf
composition.  Opaque to this repository. -/
def BiocompFn : Type := ℚ → ℚ → Splits → YDaf

/-- Type of SciPy's `minimize`: an objective, a start vector `x0` and the
five bounds give the optimized parameter vector `res.x`.  Opaque to this
repository. -/
def MinimizeFn : Type := (Splits → ℚ) → Splits → List (ℚ × ℚ) → Splits

/-- Objective function from `biocomp_all.py`: the squared distance
between the composition estimated by `cm.biocomp` and the chemical
analysis data. -/
def objfunc (biocomp : BiocompFn) (x : Splits) (yc yh : ℚ) (chem : ChemBc) : ℚ :=
  let bc := biocomp yc yh x
  let lig := bc.ligc + bc.ligh + bc.ligo
  (bc.cell - chem.cell) ^ 2 + (bc.hemi - chem.hemi) ^ 2 + (lig - chem.lig) ^ 2

/-- Optimized splitting parameters and biomass composition, from
`Feedstock.calc_biocomp`: minimize `objfunc` from `x0 = [0.6, 0.8, 0.8,
1, 1]` with every parameter bounded to [0, 1], then evaluate
`cm.biocomp` at the optimum. -/
def Feedstock.calc_biocomp (minimize : MinimizeFn) (biocomp : BiocompFn)
    (fd : Feedstock) : YDaf × Splits :=
  let yc := fd.ult_cho.c / 100
  let yh := fd.ult_cho.h / 100
  let ybc : ChemBc :=
    { cell := fd.chem_bc.cell / 100
      hemi := fd.chem_bc.hemi / 100
      lig := fd.chem_bc.lig / 100 }
  let x0 : Splits := ⟨0.6, 0.8, 0.8, 1, 1⟩
  let bnds : List (ℚ × ℚ) := [(0, 1), (0, 1), (0, 1), (0, 1), (0, 1)]
  let xopt := minimize (fun x => objfunc biocomp x yc yh ybc) x0 bnds
  let bc := biocomp yc yh xopt
  (bc, xopt)

/-- Opaque interface to the Cantera batch reactor machinery used by
`run_batch_simulation` and `BatchReactor.run_simulation`: `setup`
models `ct.Solution(cti)`, `gas.TPY = temp, pressure, y0`,
`ct.IdealGasReactor(gas, energy)` and `ct.ReactorNet([r])`; `advance`
models `sim.advance(t)`; `recordState` models reading `r.thermo.state`. -/
structure CanteraBatch (σ ρ Y : Type) where
  setup : String → ℚ → ℚ → Y → String → σ
  advance : σ → ℚ → σ
  recordState : σ → ρ

/-- Loop of `run_batch_simulation` in `reactor.py`: for each time in the
time vector, advance the solver to that time and append the recorded
state paired with the time. -/
def batchLoop {σ ρ Y : Type} (ct : CanteraBatch σ ρ Y) :
    σ → List ℚ → List (ρ × ℚ)
  | _, [] => []
  | sim, t :: ts =>
    let sim' := ct.advance sim t
    (ct.recordState sim', t) :: batchLoop ct sim' ts

/-- Batch reactor simulation from `reactor.py`: build the gas and the
reactor network from the inputs, then advance to each requested time and
record one state per time point. -/
def run_batch_simulation {σ ρ Y : Type} (ct : CanteraBatch σ ρ Y)
    (cti : String) (pressure temp : ℚ) (time : List ℚ) (y0 : Y)
    (energy : String) : List (ρ × ℚ) :=
  let sim := ct.setup cti temp pressure y0 energy
  batchLoop ct sim time

/-- Batch reactor object from `batch_reactor.py` (plotting-helper species
tuples and the yield accessors are omitted; only the state needed by
`run_simulation` is kept). -/
structure BatchReactor (ρ Y : Type) where
  y0 : Y
  temp : ℚ
  pressure : ℚ
  time : List ℚ
  cti : String
  energy : String
  states : Option (List (ρ × ℚ))

/-- Constructor of `BatchReactor`: store the inputs and set `states`
to `None`. -/
def BatchReactor.mkReactor {ρ Y : Type} (y0 : Y) (temp pressure : ℚ)
    (time : List ℚ) (cti : String) (energy : String) : BatchReactor ρ Y :=
  { y0 := y0, temp := temp, pressure := pressure, time := time,
    cti := cti, energy := energy, states := none }

/-- Loop of `BatchReactor.run_simulation` in `batch_reactor.py`,
textually the same loop as in `reactor.py`. -/
def BatchReactor.runLoop {σ ρ Y : Type} (ct : CanteraBatch σ ρ Y) :
    σ → List ℚ → List (ρ × ℚ)
  | _, [] => []
  | sim, t :: ts =>
    let sim' := ct.advance sim t
    (ct.recordState sim', t) :: BatchReactor.runLoop ct sim' ts

/-- Method `BatchReactor.run_simulation`: run the same simulation as
`run_batch_simulation` on the stored inputs and assign the result to
`self.states`. -/
def BatchReactor.run_simulation {σ ρ Y : Type} (ct : CanteraBatch σ ρ Y)
    (br : BatchReactor ρ Y) : BatchReactor ρ Y :=
  let sim := ct.setup br.cti br.temp br.pressure br.y0 br.energy
  { br with states := some (BatchReactor.runLoop ct sim br.time) }

/-- Opaque interface to the Cantera CSTR machinery used by
`run_cstr_simulation`: `setup` models building the gas, the
`IdealGasConstPressureReactor` of the given volume, the inlet/outlet
reservoirs, the mass flow and pressure controllers and the reactor
network, returning the initial reactor state; `steady` models
`sim.reinitialize()` followed by `sim.advance_to_steady_state()` given
the inlet reservoir state and the current reactor state. -/
structure CanteraCstr (σ Y : Type) where
  setup : String → ℚ → ℚ → Y → String → ℚ → ℚ → σ
  steady : σ → σ → σ

/-- Loop of `run_cstr_simulation`: at each of the `n` steps the inlet
reservoir is synchronized to the current reactor state
(`gas.TPY = cstr.thermo.TPY; inlet.syncState()`), the solver advances
the stage to steady state, and the resulting state is appended. -/
def cstrLoop {σ Y : Type} (ct : CanteraCstr σ Y) :
    Nat → σ → σ → List σ
  | 0, _, _ => []
  | Nat.succ n, _, cstr =>
    let inlet' := cstr
    let cstr' := ct.steady inlet' cstr
    cstr' :: cstrLoop ct n inlet' cstr'

/-- CSTR-in-series simulation from `reactor.py`: one reactor stage of
volume `pi * diam^2 * (length / n_cstrs)` is created, its initial state
recorded, and the stage is advanced to steady state `n_cstrs` times with
the inlet re-synchronized before each advance.  `piVal` stands for the
`np.pi` constant. -/
def run_cstr_simulation {σ Y : Type} (ct : CanteraCstr σ Y) (piVal : ℚ)
    (cti : String) (diam length : ℚ) (n_cstrs : Nat) (pressure tau temp : ℚ)
    (y0 : Y) (energy : String) : List σ :=
  let dz := length / (n_cstrs : ℚ)
  let area := piVal * diam ^ 2
  let vol := area * dz
  let cstr := ct.setup cti temp pressure y0 energy vol tau
  cstr :: cstrLoop ct n_cstrs cstr cstr

/-- Sample proximate analysis used by concrete witnesses. -/
def sampleProx : Prox := ⟨20, 70, 4, 6⟩

/-- Sample ultimate analysis used by concrete witnesses: the first six
entries [C, H, O, N, S, ash] sum to 100. -/
def sampleUlt : Ult := ⟨47, 6, 40, 3/10, 1/10, 33/5, 5⟩

/-- Sample chemical analysis used by concrete witnesses. -/
def sampleChem : Chem := ⟨2, 3, 5, 5, 5, 20, 35, 15, 3, 3, 2, 2⟩

/-- Sample experimental yield used by concrete witnesses. -/
def sampleYield : Yield5 := ⟨60, 10, 15, 5, 10⟩

/-- Sample feedstock used by concrete witnesses. -/
def sampleFeedstock : Feedstock :=
  Feedstock.init "Residues" 1 sampleProx sampleUlt sampleChem sampleYield none

/-- Sample input dictionary (all required keys present, no residence
time) used by concrete witnesses. -/
def sampleData : FeedstockData :=
  { name := some "Residues"
    cycle := some 1
    proximate := some sampleProx
    ultimate := some sampleUlt
    chemical := some sampleChem
    yieldData := some sampleYield
    residenceTime := none }

/-- Sample opaque batch-reactor service over natural-number states, used
by concrete witnesses. -/
def sampleBatchCt : CanteraBatch ℕ ℕ Unit :=
  { setup := fun _ _ _ _ _ => 0
    advance := fun s _ => s + 1
    recordState := fun s => 10 * s }

/-- Sample opaque CSTR service over natural-number states, used by
concrete witnesses. -/
def sampleCstrCt : CanteraCstr ℕ Unit :=
  { setup := fun _ _ _ _ _ _ _ => 5
    steady := fun i c => i + c }

/-!
Theorems settling the claims.
-/

/-- C2: for every Feedstock constructed from experimental yields
[oil, condensables, light gas, water vapor, char], the lumped yields are
[light gas, oil + condensables + water vapor, char], and the sum of the
three lumped yields equals the sum of the five experimental yields. -/
theorem C2_lump_yield_masses (name : String) (cycle : ℤ) (prox : Prox)
    (ult : Ult) (chem : Chem) (yld : Yield5) (rt : Option ℚ) :
    (Feedstock.init name cycle prox ult chem yld rt).lump_yield =
      { gases := yld.lightGas
        liquids := yld.oil + yld.condensables + yld.waterVapor
        solids := yld.char } ∧
    (Feedstock.init name cycle prox ult chem yld rt).lump_yield.total =
      yld.total := by
  refine ⟨rfl, ?_⟩
  simp only [Feedstock.init, calc_lump, Lump3.total, Yield5.total]
  ring

/-- C4: for a Feedstock whose as-determined proximate analysis entries
[FC, VM, ash, moisture] sum to 100 (and whose basis denominators are
nonzero), the dry-basis entries [FC, VM, ash] sum to 100 and the dry
ash-free entries [FC, VM] sum to 100. -/
theorem C4_prox_bases_normalized (name : String) (cycle : ℤ) (prox : Prox)
    (ult : Ult) (chem : Chem) (yld : Yield5) (rt : Option ℚ)
    (hsum : prox.total = 100)
    (hm : 100 - prox.moisture ≠ 0)
    (hma : 100 - prox.moisture - prox.ash ≠ 0) :
    (Feedstock.init name cycle prox ult chem yld rt).prox_d.total = 100 ∧
    (Feedstock.init name cycle prox ult chem yld rt).prox_daf.total = 100 := by
  simp only [Prox.total] at hsum
  constructor
  · simp only [Feedstock.init, calc_prox_d, ProxD.total]
    field_simp
    linarith
  · simp only [Feedstock.init, calc_prox_daf, ProxDaf.total]
    field_simp
    linarith

/-- Witness for C4 at the sample feedstock. -/
theorem C4_prox_bases_normalized_witness :
    sampleFeedstock.prox_d.total = 100 ∧ sampleFeedstock.prox_daf.total = 100 :=
  C4_prox_bases_normalized "Residues" 1 sampleProx sampleUlt sampleChem
    sampleYield none (by norm_num [sampleProx, Prox.total])
    (by norm_num [sampleProx]) (by norm_num [sampleProx])

/-- Helper: when the first six as-determined ultimate analysis entries
[C, H, O, N, S, ash] sum to 100 and the daf denominator is nonzero, the
daf entries sum to 100 (the moisture corrections on H and O subtract
exactly the moisture mass, since 0.1119 + 0.8881 = 1). -/
theorem ult_daf_total_of_six (u : Ult)
    (h6 : u.c + u.h + u.o + u.n + u.s + u.ash = 100)
    (hma : 100 - u.moisture - u.ash ≠ 0) :
    (calc_ult_daf u).total = 100 := by
  simp only [calc_ult_daf, UltDaf.total]
  field_simp
  ring_nf
  linarith

/-- Helper: the CHO entries sum to 100 whenever the daf entries do and
the CHO denominator is nonzero. -/
theorem ult_cho_total_of_daf (u : Ult)
    (hdaf : (calc_ult_daf u).total = 100)
    (hns : (calc_ult_daf u).n + (calc_ult_daf u).s ≠ 100) :
    (calc_ult_cho u).total = 100 := by
  have hD : 100 - (calc_ult_daf u).n - (calc_ult_daf u).s ≠ 0 := by
    intro h0
    exact hns (by linarith)
  simp only [UltDaf.total] at hdaf
  simp only [calc_ult_cho, UltCho.total]
  field_simp
  linarith

/-- C3 counterexample: a feedstock whose seven as-determined ultimate
analysis entries [C, H, O, N, S, ash, moisture] sum to 100 but whose
derived daf and CHO entries do not sum to 100 — `_ult_bases` subtracts
the moisture hydrogen and oxygen (0.1119 M + 0.8881 M = M) from H and O,
so a seven-entry total of 100 is the wrong normalization hypothesis when
moisture is positive. -/
theorem C3_counterexample :
    (Ult.total ⟨47, 6, 40, 3/10, 1/10, 8/5, 5⟩ = 100) ∧
    ¬((Feedstock.init "Forest" 1 sampleProx ⟨47, 6, 40, 3/10, 1/10, 8/5, 5⟩
        sampleChem sampleYield none).ult_daf.total = 100) ∧
    ¬((Feedstock.init "Forest" 1 sampleProx ⟨47, 6, 40, 3/10, 1/10, 8/5, 5⟩
        sampleChem sampleYield none).ult_cho.total = 100) := by
  refine ⟨by norm_num [Ult.total], ?_, ?_⟩ <;>
    norm_num [Feedstock.init, calc_ult_daf, calc_ult_cho, UltDaf.total,
      UltCho.total]

/-- C3 (amended): for a Feedstock whose as-determined ultimate analysis
entries [C, H, O, N, S, ash] — the reported values, which include the
hydrogen and oxygen of the moisture — sum to 100, and whose basis
denominators are nonzero, the derived daf values [C, H, O, N, S] sum to
100 and the derived CHO values [C, H, O] sum to 100. -/
theorem C3_ult_bases_normalized (name : String) (cycle : ℤ) (prox : Prox)
    (ult : Ult) (chem : Chem) (yld : Yield5) (rt : Option ℚ)
    (h6 : ult.c + ult.h + ult.o + ult.n + ult.s + ult.ash = 100)
    (hma : 100 - ult.moisture - ult.ash ≠ 0)
    (hns : (calc_ult_daf ult).n + (calc_ult_daf ult).s ≠ 100) :
    (Feedstock.init name cycle prox ult chem yld rt).ult_daf.total = 100 ∧
    (Feedstock.init name cycle prox ult chem yld rt).ult_cho.total = 100 := by
  have h1 := ult_daf_total_of_six ult h6 hma
  exact ⟨h1, ult_cho_total_of_daf ult h1 hns⟩

/-- Witness for C3 (amended) at the sample feedstock. -/
theorem C3_ult_bases_normalized_witness :
    sampleFeedstock.ult_daf.total = 100 ∧ sampleFeedstock.ult_cho.total = 100 :=
  C3_ult_bases_normalized "Residues" 1 sampleProx sampleUlt sampleChem
    sampleYield none (by norm_num [sampleUlt]) (by norm_num [sampleUlt])
    (by norm_num [sampleUlt, calc_ult_daf])

/-- C8: for a Feedstock whose experimental yield entries sum to a
nonzero value, the normalized experimental yield is the experimental
yield scaled by 100 divided by that sum, it sums to 100, and the lumped
yields computed from it also sum to 100. -/
theorem C8_normalized_yields (name : String) (cycle : ℤ) (prox : Prox)
    (ult : Ult) (chem : Chem) (yld : Yield5) (rt : Option ℚ)
    (h : yld.total ≠ 0) :
    (Feedstock.init name cycle prox ult chem yld rt).normexp_yield =
      { oil := yld.oil * (100 / yld.total)
        condensables := yld.condensables * (100 / yld.total)
        lightGas := yld.lightGas * (100 / yld.total)
        waterVapor := yld.waterVapor * (100 / yld.total)
        char := yld.char * (100 / yld.total) } ∧
    (Feedstock.init name cycle prox ult chem yld rt).normexp_yield.total = 100 ∧
    (Feedstock.init name cycle prox ult chem yld rt).normlump_yield.total = 100 := by
  simp only [Yield5.total] at h
  refine ⟨?_, ?_, ?_⟩
  · simp only [Feedstock.init, calc_normexp, Yield5.mk.injEq, Yield5.total]
    refine ⟨?_, ?_, ?_, ?_, ?_⟩ <;> ring
  · simp only [Feedstock.init, calc_normexp, Yield5.total]
    field_simp
    ring
  · simp only [Feedstock.init, calc_normexp, calc_lump, Lump3.total, Yield5.total]
    field_simp
    ring

/-- Witness for C8 at the sample feedstock. -/
theorem C8_normalized_yields_witness :
    sampleFeedstock.normexp_yield =
      { oil := sampleYield.oil * (100 / sampleYield.total)
        condensables := sampleYield.condensables * (100 / sampleYield.total)
        lightGas := sampleYield.lightGas * (100 / sampleYield.total)
        waterVapor := sampleYield.waterVapor * (100 / sampleYield.total)
        char := sampleYield.char * (100 / sampleYield.total) } ∧
    sampleFeedstock.normexp_yield.total = 100 ∧
    sampleFeedstock.normlump_yield.total = 100 :=
  C8_normalized_yields "Residues" 1 sampleProx sampleUlt sampleChem
    sampleYield none (by norm_num [sampleYield, Yield5.total])

/-- C10: every constructed Feedstock has `chem_daf` with the first two
entries (structural and non-structural organics) zeroed, every remaining
entry equal to the corresponding `chem_d` entry times 100 divided by
`sum(chem_d) - chem_d[0] - chem_d[1]`, and `chem_bc` = [glucan, xylan +
galactan + arabinan + mannan + acetyl, lignin] taken from `chem_daf`.
The embedding is immutable, so no operation changes these fields. -/
theorem C10_chem_bases_invariant (name : String) (cycle : ℤ) (prox : Prox)
    (ult : Ult) (chem : Chem) (yld : Yield5) (rt : Option ℚ) :
    (Feedstock.init name cycle prox ult chem yld rt).chem_daf.structOrg = 0 ∧
    (Feedstock.init name cycle prox ult chem yld rt).chem_daf.nonstructOrg = 0 ∧
    (Feedstock.init name cycle prox ult chem yld rt).chem_daf.waterExt =
      chem.waterExt * 100 / (chem.total - chem.structOrg - chem.nonstructOrg) ∧
    (Feedstock.init name cycle prox ult chem yld rt).chem_daf.ethanolExt =
      chem.ethanolExt * 100 / (chem.total - chem.structOrg - chem.nonstructOrg) ∧
    (Feedstock.init name cycle prox ult chem yld rt).chem_daf.acetoneExt =
      chem.acetoneExt * 100 / (chem.total - chem.structOrg - chem.nonstructOrg) ∧
    (Feedstock.init name cycle prox ult chem yld rt).chem_daf.lignin =
      chem.lignin * 100 / (chem.total - chem.structOrg - chem.nonstructOrg) ∧
    (Feedstock.init name cycle prox ult chem yld rt).chem_daf.glucan =
      chem.glucan * 100 / (chem.total - chem.structOrg - chem.nonstructOrg) ∧
    (Feedstock.init name cycle prox ult chem yld rt).chem_daf.xylan =
      chem.xylan * 100 / (chem.total - chem.structOrg - chem.nonstructOrg) ∧
    (Feedstock.init name cycle prox ult chem yld rt).chem_daf.galactan =
      chem.galactan * 100 / (chem.total - chem.structOrg - chem.nonstructOrg) ∧
    (Feedstock.init name cycle prox ult chem yld rt).chem_daf.arabinan =
      chem.arabinan * 100 / (chem.total - chem.structOrg - chem.nonstructOrg) ∧
    (Feedstock.init name cycle prox ult chem yld rt).chem_daf.mannan =
      chem.mannan * 100 / (chem.total - chem.structOrg - chem.nonstructOrg) ∧
    (Feedstock.init name cycle prox ult chem yld rt).chem_daf.acetyl =
      chem.acetyl * 100 / (chem.total - chem.structOrg - chem.nonstructOrg) ∧
    (Feedstock.init name cycle prox ult chem yld rt).chem_bc =
      { cell := (Feedstock.init name cycle prox ult chem yld rt).chem_daf.glucan
        hemi := (Feedstock.init name cycle prox ult chem yld rt).chem_daf.xylan +
          (Feedstock.init name cycle prox ult chem yld rt).chem_daf.galactan +
          (Feedstock.init name cycle prox ult chem yld rt).chem_daf.arabinan +
          (Feedstock.init name cycle prox ult chem yld rt).chem_daf.mannan +
          (Feedstock.init name cycle prox ult chem yld rt).chem_daf.acetyl
        lig := (Feedstock.init name cycle prox ult chem yld rt).chem_daf.lignin } :=
  ⟨rfl, rfl, rfl, rfl, rfl, rfl, rfl, rfl, rfl, rfl, rfl, rfl, rfl⟩

/-- C1: for every splitting-parameter vector, carbon and hydrogen mass
fractions and chemical-analysis triple, `objfunc` returns the sum of the
squared differences between the estimated composition — cell and hemi
are the first two entries of the daf composition returned by the
external `biocomp` routine, lig is the sum of its three lignin entries —
and the chemical analysis data; and `Feedstock.calc_biocomp` minimizes
this objective from `x0 = [0.6, 0.8, 0.8, 1, 1]` with each parameter
bounded to [0, 1], returning the optimized parameters together with the
composition computed from them. -/
theorem C1_biocomp_objective_and_minimization (minimize : MinimizeFn)
    (biocomp : BiocompFn) (fd : Feedstock) (x : Splits) (yc yh : ℚ)
    (chem : ChemBc) :
    objfunc biocomp x yc yh chem =
      ((biocomp yc yh x).cell - chem.cell) ^ 2 +
        ((biocomp yc yh x).hemi - chem.hemi) ^ 2 +
        ((biocomp yc yh x).ligc + (biocomp yc yh x).ligh +
            (biocomp yc yh x).ligo - chem.lig) ^ 2 ∧
    fd.calc_biocomp minimize biocomp =
      (biocomp (fd.ult_cho.c / 100) (fd.ult_cho.h / 100)
        (minimize
          (fun z => objfunc biocomp z (fd.ult_cho.c / 100) (fd.ult_cho.h / 100)
            ⟨fd.chem_bc.cell / 100, fd.chem_bc.hemi / 100, fd.chem_bc.lig / 100⟩)
          ⟨0.6, 0.8, 0.8, 1, 1⟩ [(0, 1), (0, 1), (0, 1), (0, 1), (0, 1)]),
       minimize
          (fun z => objfunc biocomp z (fd.ult_cho.c / 100) (fd.ult_cho.h / 100)
            ⟨fd.chem_bc.cell / 100, fd.chem_bc.hemi / 100, fd.chem_bc.lig / 100⟩)
          ⟨0.6, 0.8, 0.8, 1, 1⟩ [(0, 1), (0, 1), (0, 1), (0, 1), (0, 1)]) :=
  ⟨rfl, rfl⟩

/-- Helper: the attached times of the batch loop are the input times. -/
theorem batchLoop_map_snd {σ ρ Y : Type} (ct : CanteraBatch σ ρ Y) :
    ∀ (time : List ℚ) (s : σ), (batchLoop ct s time).map Prod.snd = time := by
  intro time
  induction time with
  | nil => intro s; rfl
  | cons t ts ih =>
    intro s
    simp only [batchLoop, List.map_cons, ih]

/-- Helper: the i-th recorded state of the batch loop is the solver state
after advancing through the first i+1 times, paired with the i-th time. -/
theorem batchLoop_getD {σ ρ Y : Type} (ct : CanteraBatch σ ρ Y) (d : ρ × ℚ) :
    ∀ (time : List ℚ) (s : σ) (i : Nat), i < time.length →
      (batchLoop ct s time).getD i d =
        (ct.recordState (List.foldl ct.advance s (List.take (i + 1) time)),
          time.getD i 0) := by
  intro time
  induction time with
  | nil => intro s i hi; exact absurd hi (Nat.not_lt_zero i)
  | cons t ts ih =>
    intro s i hi
    cases i with
    | zero => simp [batchLoop]
    | succ i =>
      simp only [batchLoop, List.getD_cons_succ, List.take_succ_cons,
        List.foldl_cons]
      exact ih (ct.advance s t) i (Nat.lt_of_succ_lt_succ hi)

/-- C6: `run_batch_simulation` only orchestrates the opaque solver: the
returned states carry exactly the input time vector as attached times
(hence one entry per time point, in order), and the i-th recorded state
is obtained solely by folding the solver's `advance` calls over the
first i+1 times from the initial setup. -/
theorem C6_batch_delegates_to_solver {σ ρ Y : Type} (ct : CanteraBatch σ ρ Y)
    (cti : String) (pressure temp : ℚ) (time : List ℚ) (y0 : Y)
    (energy : String) :
    (run_batch_simulation ct cti pressure temp time y0 energy).map Prod.snd
        = time ∧
    ∀ i, i < time.length →
      (run_batch_simulation ct cti pressure temp time y0 energy).getD i
          (ct.recordState (ct.setup cti temp pressure y0 energy), 0) =
        (ct.recordState
            (List.foldl ct.advance (ct.setup cti temp pressure y0 energy)
              (List.take (i + 1) time)),
          time.getD i 0) := by
  constructor
  · exact batchLoop_map_snd ct time (ct.setup cti temp pressure y0 energy)
  · intro i hi
    exact batchLoop_getD ct _ time (ct.setup cti temp pressure y0 energy) i hi

/-- Witness for C6 at a concrete solver and time vector. -/
theorem C6_batch_delegates_to_solver_witness :
    (run_batch_simulation sampleBatchCt "cti" 101325 773 [1, 2] () "off").map
        Prod.snd = [1, 2] ∧
    ∀ i, i < ([1, 2] : List ℚ).length →
      (run_batch_simulation sampleBatchCt "cti" 101325 773 [1, 2] () "off").getD i
          (sampleBatchCt.recordState (sampleBatchCt.setup "cti" 773 101325 () "off"), 0) =
        (sampleBatchCt.recordState
            (List.foldl sampleBatchCt.advance
              (sampleBatchCt.setup "cti" 773 101325 () "off")
              (List.take (i + 1) [1, 2])),
          ([1, 2] : List ℚ).getD i 0) :=
  C6_batch_delegates_to_solver sampleBatchCt "cti" 101325 773 [1, 2] () "off"

/-- C7: the near-duplicate batch embeddings agree: on identical inputs,
the standalone `run_batch_simulation` of `reactor.py` and the method
`BatchReactor.run_simulation` of `batch_reactor.py` record identical
sequences of states. -/
theorem C7_batch_duplicates_equivalent {σ ρ Y : Type} (ct : CanteraBatch σ ρ Y)
    (cti : String) (pressure temp : ℚ) (time : List ℚ) (y0 : Y)
    (energy : String) :
    (BatchReactor.run_simulation ct
        (BatchReactor.mkReactor y0 temp pressure time cti energy)).states =
      some (run_batch_simulation ct cti pressure temp time y0 energy) := by
  have h : ∀ (ts : List ℚ) (s : σ),
      BatchReactor.runLoop ct s ts = batchLoop ct s ts := by
    intro ts
    induction ts with
    | nil => intro s; rfl
    | cons t ts ih =>
      intro s
      simp only [BatchReactor.runLoop, batchLoop, ih]
  simp only [BatchReactor.run_simulation, BatchReactor.mkReactor,
    run_batch_simulation, h]

/-- Helper: the CSTR loop performs exactly n steps. -/
theorem cstrLoop_length {σ Y : Type} (ct : CanteraCstr σ Y) :
    ∀ (n : Nat) (i c : σ), (cstrLoop ct n i c).length = n := by
  intro n
  induction n with
  | zero => intro i c; rfl
  | succ n ih =>
    intro i c
    simp only [cstrLoop, List.length_cons, ih]

/-- Helper: the k-th entry of the CSTR loop is the k+1-st iterate of one
sync-and-advance step from the starting reactor state; the stale inlet
argument is never read before being overwritten. -/
theorem cstrLoop_getD {σ Y : Type} (ct : CanteraCstr σ Y) (d : σ) :
    ∀ (n : Nat) (i c : σ) (k : Nat), k < n →
      (cstrLoop ct n i c).getD k d = (fun x => ct.steady x x)^[k + 1] c := by
  intro n
  induction n with
  | zero => intro i c k hk; exact absurd hk (Nat.not_lt_zero k)
  | succ n ih =>
    intro i c k hk
    cases k with
    | zero => simp [cstrLoop]
    | succ k =>
      simp only [cstrLoop, List.getD_cons_succ]
      rw [ih c (ct.steady c c) k (Nat.lt_of_succ_lt_succ hk),
        Function.iterate_succ_apply (fun x => ct.steady x x) (k + 1) c]

/-- Helper: the k-th entry of the full states list (initial state
followed by the loop entries) is the k-th iterate of the
sync-and-advance step. -/
theorem cons_cstrLoop_getD {σ Y : Type} (ct : CanteraCstr σ Y) (d : σ)
    (n : Nat) (c : σ) :
    ∀ k, k ≤ n →
      ((c :: cstrLoop ct n c c).getD k d) = (fun x => ct.steady x x)^[k] c := by
  intro k hk
  cases k with
  | zero => rfl
  | succ k => exact cstrLoop_getD ct d n c c k (Nat.lt_of_succ_le hk)

/-- C5: `run_cstr_simulation` models n_cstrs identical stirred tanks in
series, each created with volume `pi * diam^2 * (length / n_cstrs)`: the
returned states hold exactly n_cstrs + 1 entries, the first is the
initial reactor state, and every following entry is obtained from the
previous one by synchronizing the inlet reservoir to the current reactor
state and letting the solver advance that stage to steady state. -/
theorem C5_cstr_series {σ Y : Type} (ct : CanteraCstr σ Y) (piVal : ℚ)
    (cti : String) (diam length : ℚ) (n_cstrs : Nat)
    (pressure tau temp : ℚ) (y0 : Y) (energy : String) :
    let vol := piVal * diam ^ 2 * (length / (n_cstrs : ℚ))
    let s0 := ct.setup cti temp pressure y0 energy vol tau
    let states :=
      run_cstr_simulation ct piVal cti diam length n_cstrs pressure tau temp
        y0 energy
    states.length = n_cstrs + 1 ∧
    states.getD 0 s0 = s0 ∧
    ∀ k, k < n_cstrs →
      states.getD (k + 1) s0 =
        ct.steady (states.getD k s0) (states.getD k s0) := by
  refine ⟨?_, rfl, ?_⟩
  · show (_ :: cstrLoop ct n_cstrs _ _).length = n_cstrs + 1
    simp only [List.length_cons, cstrLoop_length]
  · intro k hk
    show ((_ :: cstrLoop ct n_cstrs _ _).getD (k + 1) _) =
      ct.steady ((_ :: cstrLoop ct n_cstrs _ _).getD k _)
        ((_ :: cstrLoop ct n_cstrs _ _).getD k _)
    rw [cons_cstrLoop_getD ct _ n_cstrs _ (k + 1) (Nat.succ_le_of_lt hk),
      cons_cstrLoop_getD ct _ n_cstrs _ k (Nat.le_of_lt hk),
      Function.iterate_succ_apply' (fun x => ct.steady x x) k]

/-- Witness for C5 at a concrete solver with two reactor stages. -/
theorem C5_cstr_series_witness :
    let vol := (3 : ℚ) * 1 ^ 2 * (4 / ((2 : Nat) : ℚ))
    let s0 := sampleCstrCt.setup "cti" 773 101325 () "off" vol 20
    let states :=
      run_cstr_simulation sampleCstrCt 3 "cti" 1 4 2 101325 20 773 () "off"
    states.length = 2 + 1 ∧
    states.getD 0 s0 = s0 ∧
    ∀ k, k < 2 →
      states.getD (k + 1) s0 =
        sampleCstrCt.steady (states.getD k s0) (states.getD k s0) :=
  C5_cstr_series sampleCstrCt 3 "cti" 1 4 2 101325 20 773 () "off"

/-- C9: the Feedstock constructor succeeds exactly when the input
dictionary holds the keys name, cycle, proximate, ultimate, chemical and
yield (a missing one raises a KeyError), and the residence_time
attribute mirrors the optional residenceTime key: absent key, absent
attribute. -/
theorem C9_constructor_key_behavior (d : FeedstockData) :
    ((∃ fd, Feedstock.fromData d = Except.ok fd) ↔
      (d.name.isSome ∧ d.cycle.isSome ∧ d.proximate.isSome ∧
        d.ultimate.isSome ∧ d.chemical.isSome ∧ d.yieldData.isSome)) ∧
    ∀ fd, Feedstock.fromData d = Except.ok fd →
      fd.residence_time = d.residenceTime := by
  obtain ⟨n, c, p, u, ch, y, r⟩ := d
  cases n <;> cases c <;> cases p <;> cases u <;> cases ch <;> cases y <;>
    simp [Feedstock.fromData, Feedstock.init]

/-- Witness for C9 at the sample dictionary, whose required keys are all
present and whose residenceTime key is absent. -/
theorem C9_constructor_key_behavior_witness :
    ((∃ fd, Feedstock.fromData sampleData = Except.ok fd) ↔
      (sampleData.name.isSome ∧ sampleData.cycle.isSome ∧
        sampleData.proximate.isSome ∧ sampleData.ultimate.isSome ∧
        sampleData.chemical.isSome ∧ sampleData.yieldData.isSome)) ∧
    ∀ fd, Feedstock.fromData sampleData = Except.ok fd →
      fd.residence_time = sampleData.residenceTime :=
  C9_constructor_key_behavior sampleData

end Pyrolysis
